import Mathlib

/-
Verification of the omnipath client library core against its specification.

This file shallowly embeds the parts of the code base that the verified
properties concern:

* `omnipath/_core/requests/interactions/_evidences.py` — the evidence
  reconstruction algorithm (`unnest_evidences`, `filter_evidences`,
  `from_evidences`, `_curation_effort_from`, `_resources_from`,
  `_references_from`, `only_from`, `_must_have_evidences`);
* `omnipath/_core/query/_query_validator.py` — the per-parameter value
  validator (`ServerValidatorMeta.Validator.__call__`);
* `omnipath/_core/cache/_cache.py` — the in-memory and file-backed caches
  (`MemoryCache.__setitem__`, `FileCache.__setitem__`, `_is_empty`);
* `omnipath/_core/downloader/_downloader.py` — the caching, mirror
  falling-back downloader (`Downloader.maybe_download`);
* `omnipath/_core/requests/_annotations.py` — the full-download guard in
  `Annotations.get`.

Data frames are modelled as lists of rows; Python sets of strings are
modelled as duplicate-free lists, with Python's `sorted` modelled by an
insertion sort on `String` (both are lexicographic on code points, and all
places the code sorts are sets, so stability is irrelevant).  The MD5
fingerprint of a prepared request URL is kept abstract: every definition
that needs it takes a key-derivation function as an argument (only its
determinism, which is automatic for a Lean function, matters to the
properties below).
-/

set_option autoImplicit false

namespace Omnipath

/-! ## Small string/set helpers (model Python's `sorted`, `set`, `";".join`) -/

/-- Lexicographic `≤` on character lists, by code point: the order Python's
`sorted` uses on `str`.  (Structurally recursive so that concrete instances
reduce inside the kernel, unlike `String.ltb`.) -/
def lexLe : List Char → List Char → Bool
  | [], _ => true
  | _ :: _, [] => false
  | a :: as, b :: bs =>
      if a < b then true else if b < a then false else lexLe as bs

/-- Lexicographic `≤` on strings, by code point. -/
def strLe (a b : String) : Bool :=
  lexLe a.data b.data

/-- Insert a string into a (sorted) list, keeping it sorted: one step of the
insertion sort modelling Python's `sorted`. -/
def insertSorted (s : String) : List String → List String
  | [] => [s]
  | x :: xs => if strLe s x then s :: x :: xs else x :: insertSorted s xs

/-- Insertion sort on strings, modelling Python's `sorted` (lexicographic on
code points in both languages). -/
def sortStrings : List String → List String
  | [] => []
  | x :: xs => insertSorted x (sortStrings xs)

/-- Python's `";".join`. -/
def joinSemicolon (l : List String) : String :=
  String.intercalate ";" l

/-- Python's `set(...)` of a list of strings: duplicates removed.  The model
keeps the first occurrence of each element; a Python set's iteration order is
unspecified anyway, and every consumer below either sorts the result or only
tests membership, so only the members are observable. -/
def dedupStrings : List String → List String
  | [] => []
  | x :: xs => x :: (dedupStrings xs).filter (fun y => !(y == x))

/-- Python's `sorted(set(l))`: drop duplicates, then sort. -/
def sortedSet (l : List String) : List String :=
  sortStrings (dedupStrings l)

/-! ## Evidence records (`_evidences.py`)

One evidence record is a dict with keys `dataset`, `resource`, `via` and
`references`; `via` may be `None` (and the code also treats the empty string
as absent, through Python truthiness `'_' if ev['via'] else ''`). -/

structure Evidence where
  dataset : String
  resource : String
  via : Option String
  references : List String
deriving DecidableEq, Repr

/-- Python truthiness of `ev['via']`: `None` and `""` are falsy. -/
def Evidence.viaTruthy (ev : Evidence) : Bool :=
  ev.via.getD "" ≠ ""

/-- The nested evidences container of one interaction row: the four fixed
buckets produced by `unnest_evidences`. -/
structure Evidences where
  positive : List Evidence
  negative : List Evidence
  directed : List Evidence
  undirected : List Evidence
deriving DecidableEq, Repr

/-- All four buckets chained, as the generator
`(ev for evs in rec for ev in evs)` in `_from` does over the unnested
columns.  (`_ensure_unnested` passes the column names through
`list(to_set(columns))`, so their order is unspecified in Python; every
consumer below is order-insensitive — a sum, or a sorted set — so a fixed
order is a faithful model.) -/
def Evidences.allBuckets (e : Evidences) : List Evidence :=
  e.positive ++ e.negative ++ e.directed ++ e.undirected

/-- `_curation_effort_from`: `sum(len(ev["references"]) + 1 for ev in evs)`. -/
def curation_effort_from (evs : List Evidence) : Nat :=
  (evs.map (fun ev => ev.references.length + 1)).sum

/-- The `resource[_via]` label built by `_resources_from`:
`f"{ev['resource']}{'_' if ev['via'] else ''}{ev['via'] or ''}"`. -/
def resourceLabel (ev : Evidence) : String :=
  ev.resource ++ (if ev.viaTruthy then "_" ++ ev.via.getD "" else "")

/-- `_resources_from`: semicolon-joined sorted set of resource labels. -/
def resources_from (evs : List Evidence) : String :=
  joinSemicolon (sortedSet (evs.map resourceLabel))

/-- `_references_from` with the default `prefix=True`: semicolon-joined
sorted set of `resource:reference` strings. -/
def references_from (evs : List Evidence) : String :=
  joinSemicolon (sortedSet
    (evs.foldr (fun ev acc =>
      ev.references.map (fun ref => ev.resource ++ ":" ++ ref) ++ acc) []))

/-! ## `filter_evidences` -/

/-- The record-level predicate of `filter_evidences.the_filter`:
`(not datasets or ev["dataset"] in datasets) and
 (not resources or ev["resource"] in resources)`.
`datasets`/`resources` are `to_set(...)` of the user argument; `None` becomes
the empty set, which keeps everything. -/
def evidenceKept (datasets resources : List String) (ev : Evidence) : Bool :=
  (datasets.isEmpty || datasets.contains ev.dataset)
    && (resources.isEmpty || resources.contains ev.resource)

/-- `filter_evidences` applied to one row's evidences dict: `the_filter`
recurses into the dict values and filters each list of records. -/
def filter_evidences (datasets resources : List String) (e : Evidences) :
    Evidences where
  positive := e.positive.filter (evidenceKept datasets resources)
  negative := e.negative.filter (evidenceKept datasets resources)
  directed := e.directed.filter (evidenceKept datasets resources)
  undirected := e.undirected.filter (evidenceKept datasets resources)

/-! ## `from_evidences`

`from_evidences` recomputes the standard interaction columns of each row
from its evidences, then recompiles `consensus_direction` through a pandas
`merge`, and finally drops the rows whose `sources` string is empty
(`df = df[df.sources.apply(bool)]`).

The columns `n_sources`, `n_primary_sources`, `n_references` and
`references_stripped` added by `_count_resources` / `_count_references` /
`_strip_resource_label_df` are not modelled: no verified property mentions
them, and they do not feed into any modelled column (the final row drop
reads only `sources`). -/

/-- One input row of an interaction data frame as far as `from_evidences`
reads it: the merge keys `source` and `target`, and the evidences column. -/
structure Row where
  source : String
  target : String
  evidences : Evidences
deriving DecidableEq, Repr

/-- The per-row derived columns computed by `from_evidences` before the
`consensus_direction` merge (lines 131–144), plus the `ce_directed` helper
column that feeds the merge. -/
structure DRow where
  source : String
  target : String
  is_directed : Bool
  is_stimulation : Bool
  is_inhibition : Bool
  curation_effort : Nat
  sources : String
  references : String
  consensus_stimulation : Bool
  consensus_inhibition : Bool
  ce_directed : Nat
deriving DecidableEq, Repr

/-- One output row of `from_evidences` (the helper columns `ce_directed` and
`ce_directed_opp` are dropped by the code after the merge). -/
structure OutRow where
  source : String
  target : String
  is_directed : Bool
  is_stimulation : Bool
  is_inhibition : Bool
  curation_effort : Nat
  sources : String
  references : String
  consensus_stimulation : Bool
  consensus_inhibition : Bool
  consensus_direction : Bool
deriving DecidableEq, Repr

/-- Lines 133–144 of `_evidences.py`, for a single row.  `bool(list)` is
non-emptiness; `consensus_stimulation` / `consensus_inhibition` are the
inclusive comparisons `ce_positive >= ce_negative` / `<=`. -/
def deriveRow (r : Row) : DRow where
  source := r.source
  target := r.target
  is_directed := !r.evidences.directed.isEmpty
  is_stimulation := !r.evidences.positive.isEmpty
  is_inhibition := !r.evidences.negative.isEmpty
  curation_effort := curation_effort_from r.evidences.allBuckets
  sources := resources_from r.evidences.allBuckets
  references := references_from r.evidences.allBuckets
  consensus_stimulation :=
    decide (curation_effort_from r.evidences.positive
      ≥ curation_effort_from r.evidences.negative)
  consensus_inhibition :=
    decide (curation_effort_from r.evidences.positive
      ≤ curation_effort_from r.evidences.negative)
  ce_directed := curation_effort_from r.evidences.directed

/-- The `consensus_direction` expression of line 161–163:

`pd.isnull(df["ce_directed_opp"]) | df["ce_directed"] >= df["ce_directed_opp"]`

In Python `|` binds tighter than `>=`, so this is
`(pd.isnull(opp) | ce_directed) >= opp`.  Since the left operand of `|` is a
boolean Series, pandas' `logical_op` is the *boolean* or, coercing the
integer operand through truthiness: `isnull(opp) | ce` is the boolean
`isnull(opp) ∨ ce ≠ 0`.  The comparison then coerces that bool back to 0/1
against the integer column, so with `opp` present the row value is
`(if ce ≠ 0 then 1 else 0) >= opp`; with `opp` missing (`NaN`, in which case
the left side is `True`, i.e. 1), any pandas comparison against `NaN` is
`False`. -/
def consensusDirectionExpr (ce : Nat) (opp : Option Nat) : Bool :=
  match opp with
  | none => false
  | some o => decide ((if ce ≠ 0 then 1 else 0) ≥ o)

/-- Attach the merge result to a derived row and build the output row,
dropping the helper columns as line 164 does. -/
def attachOpp (r : DRow) (opp : Option Nat) : OutRow where
  source := r.source
  target := r.target
  is_directed := r.is_directed
  is_stimulation := r.is_stimulation
  is_inhibition := r.is_inhibition
  curation_effort := r.curation_effort
  sources := r.sources
  references := r.references
  consensus_stimulation := r.consensus_stimulation
  consensus_inhibition := r.consensus_inhibition
  consensus_direction := consensusDirectionExpr r.ce_directed opp

/-- The left merge of lines 147–160: `opposite_direction` is built from the
**unswapped** `df["source"]` / `df["target"]` columns, so each left row is
matched against every right row with the *same* `(source, target)` pair.
`how="left"` yields one output row per match, and a single row with a null
`ce_directed_opp` when there is no match (unreachable here, since each row
always matches itself). -/
def leftMergeRows (all : List DRow) : List DRow → List (DRow × Option Nat)
  | [] => []
  | r :: rest =>
      let ms := all.filter (fun j => j.source == r.source && j.target == r.target)
      (match ms with
        | [] => [(r, none)]
        | _ => ms.map (fun j => (r, some j.ce_directed)))
        ++ leftMergeRows all rest

/-- `from_evidences` over a list of rows: derive the per-row columns, merge
to recompile `consensus_direction`, and drop the rows whose `sources` is
empty. -/
def from_evidences (rows : List Row) : List OutRow :=
  let ds := rows.map deriveRow
  (((leftMergeRows ds ds).map (fun p => attachOpp p.1 p.2)).filter
    (fun o => o.sources ≠ ""))

/-! ## `only_from` and `_must_have_evidences` -/

/-- An interaction data frame at the `only_from` interface: its column
names (only the presence of `"evidences"` matters) and its rows. -/
structure Table where
  columns : List String
  rows : List Row

/-- The message of the `ValueError` raised by `_must_have_evidences`. -/
def mustHaveEvidencesMsg : String :=
  "The input data frame must contain `evidences` column."

/-- One row after the `filter_evidences` step of `only_from`. -/
def filteredRow (datasets resources : List String) (r : Row) : Row :=
  { r with evidences := filter_evidences datasets resources r.evidences }

/-- `only_from`: check the `evidences` column is present
(`_must_have_evidences`, which raises before anything else runs), then
`filter_evidences` into a temporary column, then `from_evidences` on it.
`datasets` / `resources` arrive through `to_set`, so `None` is the empty
list. -/
def only_from (datasets resources : List String) (t : Table) :
    Except String (List OutRow) :=
  if t.columns.contains "evidences" then
    Except.ok (from_evidences (t.rows.map (filteredRow datasets resources)))
  else
    Except.error mustHaveEvidencesMsg

/-! ## `ServerValidatorMeta.Validator.__call__` (`_query_validator.py`)

The haystack is `None` (no validation possible) or a set of strings; the
needle arrives already coerced to strings (`_to_string_set` stringifies every
element; booleans and enums are stringified through their codes first — the
stringification itself is not modelled, the validator's set logic operates on
the resulting strings).  Python sets are modelled as duplicate-free lists:
`set(...)` is `List.eraseDups`, `&` is a membership filter. -/

/-- Python `set(...)` of a string list (`_to_string_set` after
stringification). -/
def toStringSet (l : List String) : List String :=
  dedupStrings l

/-- The set intersection `needle & haystack` computed by the validator (on
the deduplicated needle). -/
def needleInter (haystack needle : List String) : List String :=
  (toStringSet needle).filter (fun s => haystack.contains s)

/-- The message of the `ValueError` raised on an empty intersection. -/
def noValidOptionsMsg (haystack needle : List String) : String :=
  "No valid options found in: `" ++ joinSemicolon (sortedSet needle)
    ++ "`. Valid options are: `" ++ joinSemicolon (sortedSet haystack) ++ "`."

/-- `Validator.__call__`: `None` needle passes through; `None` haystack
returns the coerced needle unvalidated (debug log only); otherwise intersect,
raising `ValueError` iff the intersection is empty, and returning the
intersection otherwise (a partial intersection only logs a warning). -/
def validatorCall (haystack : Option (List String))
    (needle : Option (List String)) : Except String (Option (List String)) :=
  match needle with
  | none => Except.ok none
  | some ns =>
      match haystack with
      | none => Except.ok (some (toStringSet ns))
      | some hs =>
          let res := needleInter hs ns
          if res.length = 0 then
            Except.error (noValidOptionsMsg hs ns)
          else
            Except.ok (some res)

/-- Whether an `Except` is the error case (models "the call raises"). -/
def isError {ε α : Type} : Except ε α → Bool
  | Except.error _ => true
  | Except.ok _ => false

/-! ## Caches (`_cache.py`)

Cached values are decoded payloads: `None`, a data frame, or some other
decoded object (e.g. parsed JSON).  `_is_empty` holds exactly for `None` and
for an empty data frame. -/

/-- A decoded payload as the cache layer distinguishes it. -/
inductive PyVal where
  | pynone
  | frame (rows : List String)
  | obj (s : String)
deriving DecidableEq, Repr

/-- `_is_empty`: `data is None or (isinstance(data, pd.DataFrame) and not
len(data))`. -/
def isEmptyVal : PyVal → Bool
  | PyVal.pynone => true
  | PyVal.frame rows => rows.isEmpty
  | PyVal.obj _ => false

/-- A `MemoryCache` is a `dict`: an association list keyed by strings, with
`dict.__setitem__` overwriting in place or appending. -/
abbrev MCache := List (String × PyVal)

/-- `dict.__setitem__`. -/
def dictSet (c : List (String × PyVal)) (k : String) (v : PyVal) :
    List (String × PyVal) :=
  if c.any (fun p => p.1 == k) then
    c.map (fun p => if p.1 == k then (k, v) else p)
  else
    c ++ [(k, v)]

/-- `dict.__getitem__` / `in`. -/
def dictGet (c : List (String × PyVal)) (k : String) : Option PyVal :=
  match c with
  | [] => none
  | p :: rest => if p.1 == k then some p.2 else dictGet rest k

/-- `MemoryCache.__setitem__`: refuse empty values, otherwise store (the
defensive `copy.copy` is identity in a pure model). -/
def memSet (c : MCache) (k : String) (v : PyVal) : MCache :=
  if isEmptyVal v then c else dictSet c k v

/-- `len` of a `MemoryCache`. -/
def memLen (c : MCache) : Nat :=
  c.length

/-- `key in cache` for a `MemoryCache`. -/
def memContains (c : MCache) (k : String) : Bool :=
  (dictGet c k).isSome

/-- The observable state of a `FileCache`: whether the directory exists, and
the files in it (name ↦ pickled payload). -/
structure FCState where
  dirExists : Bool
  files : List (String × PyVal)
deriving DecidableEq, Repr

/-- `FileCache` filename normalization: append `".pickle"` unless already
present. -/
def withPickleSuffix (k : String) : String :=
  if k.endsWith ".pickle" then k else k ++ ".pickle"

/-- `FileCache.__setitem__`: refuse empty values *before* creating the
directory; otherwise `mkdir -p` and write the pickle under the normalized
name. -/
def fcSet (s : FCState) (k : String) (v : PyVal) : FCState :=
  if isEmptyVal v then s
  else ⟨true, dictSet s.files (withPickleSuffix k) v⟩

/-- `FileCache.__len__`: number of `.pickle` files if the directory exists,
else 0. -/
def fcLen (s : FCState) : Nat :=
  if s.dirExists then
    (s.files.filter (fun p => p.1.endsWith ".pickle")).length
  else 0

/-- `FileCache.__contains__`: the normalized file exists. -/
def fcContains (s : FCState) (k : String) : Bool :=
  s.dirExists && s.files.any (fun p => p.1 == withPickleSuffix k)

/-! ## `Downloader.maybe_download` (`_downloader.py`)

The candidate URL list is already resolved (primary plus fallbacks, or the
single final URL).  Each URL string stands for the fully resolved request
URL including the serialized query string; the MD5 fingerprint is an
arbitrary function `keyOf` of it.  The transport (`Downloader._download`
plus the HTTP adapter's own retries) either raises a `RequestException` or
yields a response body; the decoder `callback` either raises or returns a
decoded payload. -/

/-- Outcome of `Downloader._download` for one URL, as `maybe_download`
observes it. -/
inductive Transport where
  | fail
  | body (b : String)

/-- How a `maybe_download` call can raise. -/
inductive MDErr where
  | decodeFailed (msg : String)
  | bareRaise
deriving DecidableEq, Repr

/-- Result of a `maybe_download` call: the returned value or the exception,
the cache afterwards, and how many times `_download` was invoked. -/
structure MDResult where
  result : Except MDErr PyVal
  cache : MCache
  netCalls : Nat
deriving Repr

/-- The `for the_url in urls` loop of `maybe_download` (lines 121–159),
followed by the final `if res is None: raise` (a bare `raise` outside any
active exception, i.e. a `RuntimeError`, modelled as `MDErr.bareRaise`):

* cache hit → `res = cache[key]`, `break`;
* transport failure → log and `continue` with the next URL;
* decode failure → the exception propagates out of the loop at once;
* decode success → store in the cache when `cache=True` (the cache itself
  refuses empty values), `break`.

An exhausted loop leaves `res is None`, hence the bare `raise`. -/
def maybeDownloadGo (net : String → Transport)
    (callback : String → Except String PyVal) (keyOf : String → String)
    (useCache : Bool) : List String → MCache → Nat → MDResult
  | [], cache, n => ⟨Except.error MDErr.bareRaise, cache, n⟩
  | url :: rest, cache, n =>
      let key := keyOf url
      match dictGet cache key with
      | some v =>
          if v = PyVal.pynone then ⟨Except.error MDErr.bareRaise, cache, n⟩
          else ⟨Except.ok v, cache, n⟩
      | none =>
          match net url with
          | Transport.fail => maybeDownloadGo net callback keyOf useCache rest cache (n + 1)
          | Transport.body b =>
              match callback b with
              | Except.error e => ⟨Except.error (MDErr.decodeFailed e), cache, n + 1⟩
              | Except.ok d =>
                  let cache' := if useCache then memSet cache key d else cache
                  if d = PyVal.pynone then ⟨Except.error MDErr.bareRaise, cache', n + 1⟩
                  else ⟨Except.ok d, cache', n + 1⟩

/-- `Downloader.maybe_download` over an already-resolved candidate URL
list. -/
def maybe_download (net : String → Transport)
    (callback : String → Except String PyVal) (keyOf : String → String)
    (useCache : Bool) (urls : List String) (cache : MCache) : MDResult :=
  maybeDownloadGo net callback keyOf useCache urls cache 0

/-! ## `Annotations.get` (`_annotations.py`) -/

/-- `_MAX_N_PROTS`. -/
def MAX_N_PROTS : Nat := 600

/-- The message of the full-download guard's `ValueError`. -/
def fullDownloadMsg : String :=
  "Please specify `force_full_download=True` in order to download the full dataset."

/-- Result of `Annotations.get`: the returned (concatenated) table or the
raised error, and how many requests were issued downstream (`inst._get`
calls, each of which performs network I/O). -/
structure AnnotResult where
  result : Except String (List String)
  fetchCalls : Nat
deriving Repr

/-- `Annotations.get`: the guard raises when `proteins is None and resources
is None and not force_full_download`, before anything is downloaded.
Otherwise, with `proteins` given, they are deduplicated, sorted and chunked
into `_MAX_N_PROTS`-sized slices; `inst._get` runs once per non-empty chunk
and the results are concatenated (`pd.concat` of an empty list raises a
`ValueError`).  With `proteins=None`, a single `inst._get` runs.  The
downstream `_get` is abstracted as `fetch`. -/
def annotationsGet (fetch : Option (List String) → Option (List String) → List String)
    (proteins : Option (List String)) (resources : Option (List String))
    (forceFullDownload : Bool) : AnnotResult :=
  if proteins.isNone && resources.isNone && !forceFullDownload then
    ⟨Except.error fullDownloadMsg, 0⟩
  else
    match proteins with
    | some ps =>
        let ps := sortStrings (toStringSet ps)
        let chunks := ((List.range (ps.length / MAX_N_PROTS + 1)).map
          (fun i => (ps.drop (i * MAX_N_PROTS)).take MAX_N_PROTS)).filter
          (fun c => !c.isEmpty)
        if chunks.isEmpty then
          ⟨Except.error "No objects to concatenate", 0⟩
        else
          ⟨Except.ok (chunks.foldr (fun c acc => fetch (some c) resources ++ acc) []),
            chunks.length⟩
    | none => ⟨Except.ok (fetch none resources), 1⟩

/-! ## Spec-side definition for C1

`from_evidences` above is the code; the claim (spec §4.5) describes a
different `consensus_direction`, formalised here from the spec's words for
comparison. -/

/-- Modelled from the spec (§4.5): `consensus_direction` of a row `r` is
true iff no reverse-direction row exists in the table (a row whose source is
`r`'s target and whose target is `r`'s source), or `r`'s directed-bucket
curation effort is ≥ that reverse row's directed-bucket effort.  (`List.all`
is vacuously true on an empty filter, covering the no-reverse-row case; the
spec speaks of "the" reverse row, i.e. at most one.) -/
def specConsensusDirection (rows : List Row) (r : Row) : Bool :=
  ((rows.map deriveRow).filter
    (fun j => j.source == r.target && j.target == r.source)).all
    (fun j => decide ((deriveRow r).ce_directed ≥ j.ce_directed))

/-- First row of the failing input for C1: `A → B`, directed effort 1. -/
def bugRow1 : Row :=
  ⟨"A", "B", ⟨[], [], [⟨"d", "X", none, []⟩], []⟩⟩

/-- Second row of the failing input for C1: the reverse direction `B → A`,
directed effort 5. -/
def bugRow2 : Row :=
  ⟨"B", "A", ⟨[], [], [⟨"d", "Y", none, ["1", "2", "3", "4"]⟩], []⟩⟩

/-! ## Shared helper lemmas -/

theorem mem_dedupStrings (y : String) :
    ∀ l : List String, y ∈ dedupStrings l ↔ y ∈ l
  | [] => by simp [dedupStrings]
  | x :: xs => by
      simp only [dedupStrings, List.mem_cons, List.mem_filter,
        mem_dedupStrings y xs, Bool.not_eq_true', beq_eq_false_iff_ne, ne_eq]
      by_cases h : y = x
      · simp [h]
      · simp [h]

/-! ## C1 — `consensus_direction` diverges from the spec (code bug)

Lines 147–153 build `opposite_direction` from the *unswapped* `source` /
`target` columns, so the "self-join on swapped endpoints" the spec (and the
variable's own name) describe never happens: every row is merged with the
rows sharing its own `(source, target)` key — at least itself.  On top of
that, the unparenthesised line 161–163 expression compares the *truthiness*
of `ce_directed` (0/1) against the opposite effort.  On the failing input
(`A → B` with directed effort 1, `B → A` with directed effort 5) the code
yields `True` for `A → B` where the claim requires `False` (the reverse row
has the larger effort, 5 > 1), and `False` for `B → A` where the claim
requires `True` (5 ≥ 1, but the code compares `1 >= 5` after the boolean
coercion). -/

/-- **C1.**  Evaluation of the code at the failing input: the code outputs
`consensus_direction = True` for `A → B` and `False` for `B → A`, while the
claimed (spec §4.5) predicate gives exactly the opposite — `False` for
`A → B`, whose reverse-direction row `B → A` has the larger directed-bucket
curation effort (5 > 1), and `True` for `B → A`. -/
theorem consensus_direction_divergence :
    curation_effort_from bugRow1.evidences.directed = 1
    ∧ curation_effort_from bugRow2.evidences.directed = 5
    ∧ (from_evidences [bugRow1, bugRow2]).map
        (fun o => (o.source, o.target, o.consensus_direction))
      = [("A", "B", true), ("B", "A", false)]
    ∧ specConsensusDirection [bugRow1, bugRow2] bugRow1 = false
    ∧ specConsensusDirection [bugRow1, bugRow2] bugRow2 = true := by
  exact ⟨by decide, by decide, by decide, by decide, by decide⟩

/-! ## C2 — validator intersection law -/

/-- **C2.**  For a known accepted-value set `hs` and a non-`None` input `ns`,
`Validator.__call__` raises iff the coerced set of `ns` has empty
intersection with `hs`; otherwise it returns exactly that intersection (so a
strict-subset intersection still succeeds — the dropped values are only
logged). -/
theorem validator_intersection_law (hs ns : List String) :
    (isError (validatorCall (some hs) (some ns)) = true ↔ needleInter hs ns = [])
    ∧ (needleInter hs ns ≠ [] →
        validatorCall (some hs) (some ns) = Except.ok (some (needleInter hs ns)))
    ∧ (∀ x : String, x ∈ needleInter hs ns ↔ x ∈ ns ∧ x ∈ hs) := by
  have hred : validatorCall (some hs) (some ns)
      = if (needleInter hs ns).length = 0 then
          Except.error (noValidOptionsMsg hs ns)
        else Except.ok (some (needleInter hs ns)) := rfl
  refine ⟨?_, ?_, ?_⟩
  · rw [hred]
    by_cases h : (needleInter hs ns).length = 0
    · simp [h, isError, List.length_eq_zero.mp h]
    · simp only [h, if_false, isError, Bool.false_eq_true, false_iff]
      exact fun hh => h (by rw [hh]; rfl)
  · intro h
    rw [hred, if_neg (fun hl => h (List.length_eq_zero.mp hl))]
  · intro x
    simp only [needleInter, toStringSet, List.mem_filter, mem_dedupStrings]
    constructor
    · rintro ⟨hx, hc⟩
      exact ⟨hx, by simpa using hc⟩
    · rintro ⟨hx, hc⟩
      exact ⟨hx, by simpa using hc⟩

/-- Witness for C2 at a concrete input: haystack `{a, b}`, needle `{b, c}`
(a strict-subset intersection) returns exactly `{b}` without raising, and
`b` is in the intersection. -/
theorem validator_intersection_law_witness :
    validatorCall (some ["a", "b"]) (some ["b", "c"]) = Except.ok (some ["b"])
    ∧ ("b" ∈ needleInter ["a", "b"] ["b", "c"] ↔
        "b" ∈ ["b", "c"] ∧ "b" ∈ ["a", "b"]) :=
  ⟨(validator_intersection_law ["a", "b"] ["b", "c"]).2.1 (by decide),
   (validator_intersection_law ["a", "b"] ["b", "c"]).2.2 "b"⟩

/-! ## C5 — curation effort and the single-record scenario -/

/-- The evidence record of the spec's scenario. -/
def scenarioEvidence : Evidence :=
  ⟨"d1", "A", none, ["10", "11"]⟩

/-- A row whose `positive` bucket holds exactly the scenario record. -/
def scenarioRow : Row :=
  ⟨"P", "Q", ⟨[scenarioEvidence], [], [], []⟩⟩

/-- **C5.**  Curation effort sums `len(references) + 1` per record with no
per-resource deduplication (a duplicated record counts twice), and on the
scenario row (`positive` bucket = one record, dataset `d1`, resource `A`,
no `via`, references `10`, `11`): effort 3, `sources = "A"`,
`references = "A:10;A:11"`, `is_stimulation = True`. -/
theorem curation_effort_sum_and_scenario :
    (∀ ev : Evidence,
      curation_effort_from [ev, ev] = 2 * (ev.references.length + 1))
    ∧ curation_effort_from scenarioRow.evidences.positive = 3
    ∧ (deriveRow scenarioRow).sources = "A"
    ∧ (deriveRow scenarioRow).references = "A:10;A:11"
    ∧ (deriveRow scenarioRow).is_stimulation = true := by
  refine ⟨fun ev => ?_, by decide, by decide, by decide, by decide⟩
  simp [curation_effort_from]
  omega

/-! ## C6 — inclusive consensus on curation-effort ties -/

/-- **C6.**  When the positive- and negative-bucket curation efforts of a
row are equal, reconstruction sets both `consensus_stimulation` and
`consensus_inhibition` to `True` (the comparisons of lines 143–144 are
`>=` and `<=`, both inclusive); the merge step (`attachOpp`) copies both
flags unchanged into the output row. -/
theorem consensus_tie (r : Row)
    (h : curation_effort_from r.evidences.positive
      = curation_effort_from r.evidences.negative) :
    ((deriveRow r).consensus_stimulation = true
      ∧ (deriveRow r).consensus_inhibition = true)
    ∧ ∀ opp : Option Nat,
        (attachOpp (deriveRow r) opp).consensus_stimulation = true
        ∧ (attachOpp (deriveRow r) opp).consensus_inhibition = true := by
  have hs : (deriveRow r).consensus_stimulation = true := by
    simp [deriveRow, h]
  have hi : (deriveRow r).consensus_inhibition = true := by
    simp [deriveRow, h]
  exact ⟨⟨hs, hi⟩, fun opp => ⟨hs, hi⟩⟩

/-- Witness for C6: a row with effort 2 in both the positive and negative
buckets gets both consensus flags. -/
theorem consensus_tie_witness :
    ((deriveRow ⟨"a", "b", ⟨[⟨"d", "P", none, ["1"]⟩], [⟨"d", "N", none, ["2"]⟩],
        [], []⟩⟩).consensus_stimulation = true
    ∧ (deriveRow ⟨"a", "b", ⟨[⟨"d", "P", none, ["1"]⟩], [⟨"d", "N", none, ["2"]⟩],
        [], []⟩⟩).consensus_inhibition = true)
    ∧ ∀ opp : Option Nat,
        (attachOpp (deriveRow ⟨"a", "b", ⟨[⟨"d", "P", none, ["1"]⟩],
          [⟨"d", "N", none, ["2"]⟩], [], []⟩⟩) opp).consensus_stimulation = true
        ∧ (attachOpp (deriveRow ⟨"a", "b", ⟨[⟨"d", "P", none, ["1"]⟩],
          [⟨"d", "N", none, ["2"]⟩], [], []⟩⟩) opp).consensus_inhibition = true :=
  consensus_tie ⟨"a", "b", ⟨[⟨"d", "P", none, ["1"]⟩], [⟨"d", "N", none, ["2"]⟩],
    [], []⟩⟩ (by decide)

/-! ## C8 — empty values are never stored in either cache -/

/-- **C8.**  For both cache implementations, setting an entry to an empty
value (`None` or an empty data frame) leaves the cache state entirely
unchanged: the state is equal to the old one, the size is unchanged, and an
absent key stays absent. -/
theorem empty_values_not_stored (c : MCache) (s : FCState) (k : String)
    (v : PyVal) (h : isEmptyVal v = true) :
    memSet c k v = c ∧ fcSet s k v = s
    ∧ memLen (memSet c k v) = memLen c ∧ fcLen (fcSet s k v) = fcLen s
    ∧ (memContains c k = false → memContains (memSet c k v) k = false)
    ∧ (fcContains s k = false → fcContains (fcSet s k v) k = false) := by
  have h1 : memSet c k v = c := by simp [memSet, h]
  have h2 : fcSet s k v = s := by simp [fcSet, h]
  exact ⟨h1, h2, by rw [h1], by rw [h2], fun hc => by rw [h1]; exact hc,
    fun hc => by rw [h2]; exact hc⟩

/-- Witness for C8: storing `None` and an empty frame into concrete caches
changes nothing. -/
theorem empty_values_not_stored_witness :
    memSet [("k0", PyVal.obj "x")] "k" PyVal.pynone = [("k0", PyVal.obj "x")]
    ∧ fcSet ⟨false, []⟩ "k" PyVal.pynone = (⟨false, []⟩ : FCState)
    ∧ memLen (memSet [("k0", PyVal.obj "x")] "k" PyVal.pynone)
        = memLen [("k0", PyVal.obj "x")]
    ∧ fcLen (fcSet ⟨false, []⟩ "k" PyVal.pynone) = fcLen ⟨false, []⟩
    ∧ (memContains [("k0", PyVal.obj "x")] "k" = false →
        memContains (memSet [("k0", PyVal.obj "x")] "k" PyVal.pynone) "k" = false)
    ∧ (fcContains ⟨false, []⟩ "k" = false →
        fcContains (fcSet ⟨false, []⟩ "k" PyVal.pynone) "k" = false) :=
  empty_values_not_stored [("k0", PyVal.obj "x")] ⟨false, []⟩ "k"
    PyVal.pynone (by decide)

/-! ## C9 — full-download guard of `Annotations.get` -/

/-- **C9.**  An annotations request with no `proteins` filter, no
`resources` filter and `force_full_download` unset raises the usability
`ValueError` with zero downstream requests issued; the same call with the
override flag set proceeds to the (single) download. -/
theorem annotations_full_download_guard
    (fetch : Option (List String) → Option (List String) → List String) :
    annotationsGet fetch none none false = ⟨Except.error fullDownloadMsg, 0⟩
    ∧ annotationsGet fetch none none true = ⟨Except.ok (fetch none none), 1⟩ :=
  ⟨rfl, rfl⟩

/-! ## C10 — `only_from` requires an `evidences` column -/

/-- **C10.**  On any table lacking an `evidences` column, `only_from`
raises the `_must_have_evidences` `ValueError` (whatever the dataset and
resource filters), and never returns a result: the check runs before any
filtering touches the table. -/
theorem only_from_requires_evidences (datasets resources : List String)
    (t : Table) (h : t.columns.contains "evidences" = false) :
    only_from datasets resources t = Except.error mustHaveEvidencesMsg := by
  simp only [only_from, h, Bool.false_eq_true, if_false]

/-- Witness for C10: a two-column table without `evidences`. -/
theorem only_from_requires_evidences_witness :
    only_from ["d1"] ["A"] ⟨["source", "target"], []⟩
      = Except.error mustHaveEvidencesMsg :=
  only_from_requires_evidences ["d1"] ["A"] ⟨["source", "target"], []⟩
    (by decide)

/-! ## C3 — cache hit means no network call; at-most-once download -/

theorem dictGet_map_set (k : String) (v : PyVal) :
    ∀ c : List (String × PyVal), c.any (fun p => p.1 == k) = true →
      dictGet (c.map (fun p => if p.1 == k then (k, v) else p)) k = some v
  | [], h => by simp at h
  | p :: rest, h => by
      rw [List.map_cons]
      by_cases hp : (p.1 == k) = true
      · rw [if_pos hp]
        simp [dictGet]
      · rw [if_neg hp]
        have hrest : rest.any (fun p => p.1 == k) = true := by
          simpa [List.any_cons, hp] using h
        simp only [dictGet]
        rw [if_neg hp]
        exact dictGet_map_set k v rest hrest

theorem dictGet_append_single (k : String) (v : PyVal) :
    ∀ c : List (String × PyVal), c.any (fun p => p.1 == k) = false →
      dictGet (c ++ [(k, v)]) k = some v
  | [], _ => by simp [dictGet]
  | p :: rest, h => by
      rw [List.any_cons, Bool.or_eq_false_iff] at h
      obtain ⟨hp, hrest⟩ := h
      rw [List.cons_append]
      simp only [dictGet]
      rw [if_neg (by simp [hp])]
      exact dictGet_append_single k v rest hrest

/-- After `dict.__setitem__`, the key maps to the stored value. -/
theorem dictGet_dictSet (c : MCache) (k : String) (v : PyVal) :
    dictGet (dictSet c k v) k = some v := by
  unfold dictSet
  by_cases h : c.any (fun p => p.1 == k) = true
  · simp only [h, if_true]
    exact dictGet_map_set k v c h
  · simp only [h, if_false]
    exact dictGet_append_single k v c (Bool.eq_false_iff.mpr h)

/-- **C3 (amended).**  A cache hit on the first candidate URL returns the
cached value with zero invocations of `_download` and an unchanged cache;
and when the first candidate's download and decode succeed with a non-empty
payload, the call performs exactly one download, returns the decoded value,
and repeating the identical call afterwards performs zero downloads (the
fingerprint is now cached), returning the same value. -/
theorem maybe_download_at_most_once (net : String → Transport)
    (cb : String → Except String PyVal) (keyOf : String → String)
    (url : String) (rest : List String) (cache : MCache) (v : PyVal) :
    (dictGet cache (keyOf url) = some v → v ≠ PyVal.pynone →
      maybe_download net cb keyOf true (url :: rest) cache
        = ⟨Except.ok v, cache, 0⟩)
    ∧ (∀ b : String, dictGet cache (keyOf url) = none →
        net url = Transport.body b → cb b = Except.ok v → isEmptyVal v = false →
        (maybe_download net cb keyOf true (url :: rest) cache).netCalls = 1
        ∧ (maybe_download net cb keyOf true (url :: rest) cache).result
            = Except.ok v
        ∧ maybe_download net cb keyOf true (url :: rest)
            (maybe_download net cb keyOf true (url :: rest) cache).cache
          = ⟨Except.ok v,
              (maybe_download net cb keyOf true (url :: rest) cache).cache, 0⟩) := by
  constructor
  · intro hget hv
    simp [maybe_download, maybeDownloadGo, hget, hv]
  · intro b hget hnet hcb hne
    have hv : v ≠ PyVal.pynone := by
      intro h
      rw [h] at hne
      simp [isEmptyVal] at hne
    have hc1 : maybe_download net cb keyOf true (url :: rest) cache
        = ⟨Except.ok v, dictSet cache (keyOf url) v, 1⟩ := by
      simp [maybe_download, maybeDownloadGo, hget, hnet, hcb, memSet, hne, hv]
    refine ⟨by rw [hc1], by rw [hc1], ?_⟩
    rw [hc1]
    simp [maybe_download, maybeDownloadGo, dictGet_dictSet, hv]

/-- Witness for C3 (amended), both conjuncts at concrete inputs: a
pre-populated cache is hit with zero downloads; a fresh cache leads to one
download on the first call and zero on the second. -/
theorem maybe_download_at_most_once_witness :
    maybe_download (fun _ => Transport.body "x")
        (fun _ => Except.ok (PyVal.obj "r")) (fun u => u) true ["u"]
        [("u", PyVal.obj "r")]
      = ⟨Except.ok (PyVal.obj "r"), [("u", PyVal.obj "r")], 0⟩
    ∧ ((maybe_download (fun _ => Transport.body "x")
          (fun _ => Except.ok (PyVal.obj "r")) (fun u => u) true ["u"]
          []).netCalls = 1
      ∧ (maybe_download (fun _ => Transport.body "x")
          (fun _ => Except.ok (PyVal.obj "r")) (fun u => u) true ["u"]
          []).result = Except.ok (PyVal.obj "r")
      ∧ maybe_download (fun _ => Transport.body "x")
          (fun _ => Except.ok (PyVal.obj "r")) (fun u => u) true ["u"]
          (maybe_download (fun _ => Transport.body "x")
            (fun _ => Except.ok (PyVal.obj "r")) (fun u => u) true ["u"]
            []).cache
        = ⟨Except.ok (PyVal.obj "r"),
            (maybe_download (fun _ => Transport.body "x")
              (fun _ => Except.ok (PyVal.obj "r")) (fun u => u) true ["u"]
              []).cache, 0⟩) :=
  ⟨(maybe_download_at_most_once (fun _ => Transport.body "x")
      (fun _ => Except.ok (PyVal.obj "r")) (fun u => u) "u" []
      [("u", PyVal.obj "r")] (PyVal.obj "r")).1 (by decide) (by decide),
   (maybe_download_at_most_once (fun _ => Transport.body "x")
      (fun _ => Except.ok (PyVal.obj "r")) (fun u => u) "u" []
      [] (PyVal.obj "r")).2 "x" rfl rfl rfl (by decide)⟩

/-- Counterexample for C3 as stated: the decoder yields an *empty* data
frame, which the cache refuses to store; the identical request issued twice
therefore performs two downloads, not one (the first call leaves the cache
empty). -/
theorem maybe_download_twice_counterexample :
    (maybe_download (fun _ => Transport.body "x")
        (fun _ => Except.ok (PyVal.frame [])) (fun u => u) true ["u"]
        []).cache = []
    ∧ (maybe_download (fun _ => Transport.body "x")
        (fun _ => Except.ok (PyVal.frame [])) (fun u => u) true ["u"]
        []).netCalls = 1
    ∧ (maybe_download (fun _ => Transport.body "x")
        (fun _ => Except.ok (PyVal.frame [])) (fun u => u) true ["u"]
        (maybe_download (fun _ => Transport.body "x")
          (fun _ => Except.ok (PyVal.frame [])) (fun u => u) true ["u"]
          []).cache).netCalls = 1 := by
  exact ⟨rfl, rfl, rfl⟩

/-! ## C4 — transport fallback, decode propagation, hard failure -/

theorem allFail_go_result (net : String → Transport)
    (cb : String → Except String PyVal) (keyOf : String → String)
    (useCache : Bool) (cache : MCache) :
    ∀ urls : List String,
      (∀ u ∈ urls, dictGet cache (keyOf u) = none ∧ net u = Transport.fail) →
      ∀ n : Nat, (maybeDownloadGo net cb keyOf useCache urls cache n).result
        = Except.error MDErr.bareRaise
  | [], _, n => rfl
  | url :: rest, h, n => by
      obtain ⟨h1, h2⟩ := h url (List.mem_cons_self url rest)
      have ih := allFail_go_result net cb keyOf useCache cache rest
        (fun u hu => h u (List.mem_cons_of_mem url hu)) (n + 1)
      simpa [maybeDownloadGo, h1, h2] using ih

/-- **C4.**  In `maybe_download`: (i) a transport-level failure on a
candidate URL is caught and the loop moves to the next candidate, raising
nothing; (ii) an error raised by the decoder on a successfully fetched body
propagates immediately, whatever candidates remain; (iii) if every candidate
fails at the transport level the call raises (the bare `raise` of line 157)
instead of returning a value. -/
theorem maybe_download_error_handling (net : String → Transport)
    (cb : String → Except String PyVal) (keyOf : String → String)
    (useCache : Bool) (url : String) (rest urls : List String)
    (cache : MCache) (n : Nat) :
    (dictGet cache (keyOf url) = none → net url = Transport.fail →
      maybeDownloadGo net cb keyOf useCache (url :: rest) cache n
        = maybeDownloadGo net cb keyOf useCache rest cache (n + 1))
    ∧ (∀ b e, dictGet cache (keyOf url) = none → net url = Transport.body b →
        cb b = Except.error e →
        maybeDownloadGo net cb keyOf useCache (url :: rest) cache n
          = ⟨Except.error (MDErr.decodeFailed e), cache, n + 1⟩)
    ∧ ((∀ u ∈ urls, dictGet cache (keyOf u) = none ∧ net u = Transport.fail) →
        (maybe_download net cb keyOf useCache urls cache).result
          = Except.error MDErr.bareRaise) := by
  refine ⟨?_, ?_, ?_⟩
  · intro h1 h2
    simp [maybeDownloadGo, h1, h2]
  · intro b e h1 h2 h3
    simp [maybeDownloadGo, h1, h2, h3]
  · intro h
    exact allFail_go_result net cb keyOf useCache cache urls h 0

/-- Witness for C4 at concrete inputs: (i) with a dead first mirror the loop
equals its continuation on the remaining mirror; (ii) a decode error on the
first mirror surfaces at once even though a second mirror is configured;
(iii) two dead mirrors make the whole call raise. -/
theorem maybe_download_error_handling_witness :
    maybeDownloadGo (fun _ => Transport.fail)
        (fun _ => Except.ok (PyVal.obj "r")) (fun u => u) true
        ["u1", "u2"] [] 0
      = maybeDownloadGo (fun _ => Transport.fail)
          (fun _ => Except.ok (PyVal.obj "r")) (fun u => u) true ["u2"] [] 1
    ∧ maybeDownloadGo (fun _ => Transport.body "x")
        (fun _ => Except.error "bad") (fun u => u) true ["u1", "u2"] [] 0
      = ⟨Except.error (MDErr.decodeFailed "bad"), [], 1⟩
    ∧ (maybe_download (fun _ => Transport.fail)
        (fun _ => Except.ok (PyVal.obj "r")) (fun u => u) true
        ["u1", "u2"] []).result = Except.error MDErr.bareRaise :=
  ⟨(maybe_download_error_handling (fun _ => Transport.fail)
      (fun _ => Except.ok (PyVal.obj "r")) (fun u => u) true "u1" ["u2"]
      ["u1", "u2"] [] 0).1 rfl rfl,
   (maybe_download_error_handling (fun _ => Transport.body "x")
      (fun _ => Except.error "bad") (fun u => u) true "u1" ["u2"]
      ["u1", "u2"] [] 0).2.1 "x" "bad" rfl rfl rfl,
   (maybe_download_error_handling (fun _ => Transport.fail)
      (fun _ => Except.ok (PyVal.obj "r")) (fun u => u) true "u1" ["u2"]
      ["u1", "u2"] [] 0).2.2 (fun _ _ => ⟨rfl, rfl⟩)⟩

/-! ## C7 — reconstruction drops exactly the rows with empty `sources` -/

/-- Every derived row that is in the merge base and in the scanned list
produces its own self-match pair in the left merge (each row's
`(source, target)` key matches itself). -/
theorem self_pair_mem_leftMergeRows (all : List DRow) (d : DRow)
    (hd : d ∈ all) :
    ∀ l : List DRow, d ∈ l → (d, some d.ce_directed) ∈ leftMergeRows all l
  | [], hl => by simp at hl
  | r :: rest, hl => by
      rcases List.mem_cons.mp hl with heq | hmem
      · subst heq
        simp only [leftMergeRows]
        apply List.mem_append_left
        have hms : d ∈ all.filter
            (fun j => j.source == d.source && j.target == d.target) := by
          rw [List.mem_filter]
          exact ⟨hd, by simp⟩
        cases hc : all.filter
            (fun j => j.source == d.source && j.target == d.target) with
        | nil => rw [hc] at hms; simp at hms
        | cons a as =>
            rw [hc] at hms
            show (d, some d.ce_directed)
              ∈ List.map (fun j => (d, some j.ce_directed)) (a :: as)
            exact List.mem_map_of_mem (fun j => (d, some j.ce_directed)) hms
      · exact List.mem_append_right _
          (self_pair_mem_leftMergeRows all d hd rest hmem)

/-- **C7.**  `only_from` keeps exactly the rows whose reconstructed
`sources` string is non-empty: every output row has non-empty `sources`,
and every input row whose post-filtering derived `sources` is non-empty
contributes an output row with its endpoints and that `sources` value.  On
the spec scenario — a single row whose only evidence has resource `B`,
filtered with `resources=["A"]` — the output is empty: the row is dropped
entirely. -/
theorem reconstruction_drops_empty_sources (datasets resources : List String)
    (t : Table) (hcol : t.columns.contains "evidences" = true) :
    (∃ out, only_from datasets resources t = Except.ok out
      ∧ (∀ o ∈ out, o.sources ≠ "")
      ∧ (∀ r ∈ t.rows,
          (deriveRow (filteredRow datasets resources r)).sources ≠ "" →
          ∃ o ∈ out, o.source = r.source ∧ o.target = r.target
            ∧ o.sources = (deriveRow (filteredRow datasets resources r)).sources))
    ∧ only_from [] ["A"]
        ⟨["evidences"], [⟨"S", "T", ⟨[], [], [⟨"d1", "B", none, ["9"]⟩], []⟩⟩]⟩
      = Except.ok [] := by
  constructor
  · refine ⟨from_evidences (t.rows.map (filteredRow datasets resources)),
      ?_, ?_, ?_⟩
    · unfold only_from
      rw [if_pos hcol]
    · intro o ho
      simp only [from_evidences] at ho
      exact of_decide_eq_true (List.mem_filter.mp ho).2
    · intro r hr hne
      have hd : deriveRow (filteredRow datasets resources r)
          ∈ (t.rows.map (filteredRow datasets resources)).map deriveRow :=
        List.mem_map_of_mem deriveRow
          (List.mem_map_of_mem (filteredRow datasets resources) hr)
      have hpair := self_pair_mem_leftMergeRows
        ((t.rows.map (filteredRow datasets resources)).map deriveRow)
        (deriveRow (filteredRow datasets resources r)) hd
        ((t.rows.map (filteredRow datasets resources)).map deriveRow) hd
      refine ⟨attachOpp (deriveRow (filteredRow datasets resources r))
        (some (deriveRow (filteredRow datasets resources r)).ce_directed),
        ?_, rfl, rfl, rfl⟩
      simp only [from_evidences]
      refine List.mem_filter.mpr ⟨?_, ?_⟩
      · exact List.mem_map_of_mem (fun p => attachOpp p.1 p.2) hpair
      · exact decide_eq_true hne
  · rfl

/-- Witness for C7 at a concrete input: a single-row table whose evidence
(dataset `d1`, resource `A`) survives the `["d1"]` / `["A"]` filters. -/
theorem reconstruction_drops_empty_sources_witness :
    ∃ out, only_from ["d1"] ["A"] (Table.mk ["evidences"] [scenarioRow])
        = Except.ok out
      ∧ (∀ o ∈ out, o.sources ≠ "")
      ∧ (∀ r ∈ (Table.mk ["evidences"] [scenarioRow]).rows,
          (deriveRow (filteredRow ["d1"] ["A"] r)).sources ≠ "" →
          ∃ o ∈ out, o.source = r.source ∧ o.target = r.target
            ∧ o.sources = (deriveRow (filteredRow ["d1"] ["A"] r)).sources) :=
  (reconstruction_drops_empty_sources ["d1"] ["A"]
    (Table.mk ["evidences"] [scenarioRow]) (by decide)).1

end Omnipath
